import Mathlib

/-!
Shallow embedding of the deployment-orchestration core of the EasyDeploy
repository (Django application): `src/core/models.py` (`Project.get_next_available_port`,
`Project.deploy_with_docker`, `Project.stop_container`, `Project.check_container_status`,
the `Deployment` ledger model), `src/core/views.py` (`deploy_project`, `github_webhook`)
and `src/projects/views.py` (`project_deploy`).

Conventions of the embedding:
* Django model instances become Lean structures; `save()` is modelled by
  threading the updated record.
* The Docker daemon is modelled by an explicit `DockerState`: a list of
  containers plus a counter for runtime-assigned container ids.  The `docker`
  CLI calls issued through `subprocess.run` become pure operations on this
  state.  `subprocess.run` without `check=True` never raises on a non-zero
  exit code, so every ignored-result invocation is modelled as a best-effort
  state update.
* The outcomes of the external, non-deterministic steps of one deployment
  attempt (git clone, Dockerfile presence in the fresh clone, docker build,
  the two `docker run`s, and each HTTP probe of the health-check loop) are
  inputs of the model (`DeployEnv`), so that every control-flow path of
  `deploy_with_docker` is reachable and analysable.
* Machine integers do not overflow in any relevant range; ports and ids are
  `Nat`.
-/

namespace EasyDeploy

/-- Project status enum, `Project.STATUS_CHOICES` in `src/core/models.py`. -/
inductive PStatus where
  | pending
  | deploying
  | running
  | failed
  | stopped
deriving DecidableEq, Repr

/-- Deployment (ledger entry) status enum, `Deployment.STATUS_CHOICES`. -/
inductive DepStatus where
  | success
  | failed
  | in_progress
deriving DecidableEq, Repr

/-- The mutable, orchestration-relevant fields of a `Project` row
(`src/core/models.py` lines 33-61).  Fields that only shape shell-command
text (dockerfile_path, build/run command, environment variables) are
abstracted: their observable effect enters through `DeployEnv`. -/
structure ProjState where
  pid : Nat
  github_repo_url : String
  status : PStatus
  exposed_port : Option Nat
  docker_container_id : String
  docker_image_name : String
  webhook_enabled : Bool
  webhook_token : String
  webhook_branch : String
deriving DecidableEq, Repr

/-- One container known to the Docker daemon. -/
structure Container where
  cid : String
  cname : String
  running : Bool
  image : String
  hostPort : Nat
deriving DecidableEq, Repr

/-- The Docker daemon's state: current containers plus a counter from which
runtime-assigned container ids are generated. -/
structure DockerState where
  containers : List Container
  nextId : Nat
deriving DecidableEq, Repr

/-- `docker` CLI commands accept a container id or a container name. -/
def matchesRef (t : String) (c : Container) : Bool :=
  c.cid = t || c.cname = t

/-- The container list after `docker rm -f <target>`. -/
def rmFList (t : String) (l : List Container) : List Container :=
  l.filter (fun c => !(matchesRef t c))

/-- The container list after `docker stop <target>`. -/
def stopList (t : String) (l : List Container) : List Container :=
  l.map (fun c => if matchesRef t c then { c with running := false } else c)

/-- The container list after `docker start <target>`. -/
def startList (t : String) (l : List Container) : List Container :=
  l.map (fun c => if matchesRef t c then { c with running := true } else c)

/-- `docker rm -f <target>`: force-remove; removing an absent target is not
an error (and the python code ignores the result anyway). -/
def dockerRmF (d : DockerState) (t : String) : DockerState :=
  { d with containers := rmFList t d.containers }

/-- `docker rm <target>` (no `-f`, line 201 of models.py): removes a stopped
container; fails (hence: leaves the state unchanged, result ignored) on a
running one. -/
def dockerRm (d : DockerState) (t : String) : DockerState :=
  { d with containers := d.containers.filter (fun c => !(matchesRef t c && !c.running)) }

/-- `docker stop <target>`: best-effort, result ignored by the callers. -/
def dockerStop (d : DockerState) (t : String) : DockerState :=
  { d with containers := stopList t d.containers }

/-- `docker start <target>`: best-effort, result ignored by the callers. -/
def dockerStart (d : DockerState) (t : String) : DockerState :=
  { d with containers := startList t d.containers }

/-- `docker rename old new`: fails when `new` is already taken.  The python
source wraps it in try/except, but `subprocess.run` does not raise on a
non-zero exit code, so a failed rename is simply a no-op. -/
def dockerRename (d : DockerState) (old new : String) : DockerState :=
  if d.containers.any (fun c => c.cname = new) then d
  else { d with containers := d.containers.map (fun c =>
      if matchesRef old c then { c with cname := new } else c) }

/-- The runtime-assigned id the daemon would give the next container. -/
def freshCid (d : DockerState) : String := "cid" ++ toString d.nextId

/-- `docker run -d -p host:80 --name name image`: on success returns the new
container's id; on failure (`ok = false`, e.g. port already bound) the CLI
exits non-zero but typically leaves a created, non-running container holding
the name.  Returns `(some id, state)` or `(none, state)`. -/
def dockerRunCmd (d : DockerState) (name image : String) (port : Nat) (ok : Bool) :
    Option String × DockerState :=
  if ok then
    (some (freshCid d),
     { containers := ⟨freshCid d, name, true, image, port⟩ :: d.containers,
       nextId := d.nextId + 1 })
  else
    (none,
     { containers := ⟨freshCid d, name, false, image, port⟩ :: d.containers,
       nextId := d.nextId + 1 })

/-! ## Port allocator (`Project.get_next_available_port`, models.py lines 70-76)

The python loop `while port in used_ports: port += 1` starting at 3000 is
embedded with an explicit iteration budget `maxUsed used + 1`, which is
provably enough (`get_next_available_port_spec`), so the embedded function
computes the same value the unbounded loop does. -/

/-- Largest port in the used list (0 when empty). -/
def maxUsed (used : List Nat) : Nat := used.foldr max 0

/-- The scan `while port in used_ports: port += 1`, with an explicit fuel. -/
def scanPort (used : List Nat) : Nat → Nat → Nat
  | 0, port => port
  | fuel + 1, port => if port ∈ used then scanPort used fuel (port + 1) else port

/-- `Project.get_next_available_port`: smallest unused port starting at 3000.
`used` is the snapshot of every project's non-null `exposed_port`. -/
def get_next_available_port (used : List Nat) : Nat :=
  scanPort used (maxUsed used + 1) 3000

/-! ## Health prober (models.py lines 156-168)

The loop `for _ in range(30): try: urllib.request.urlopen(url, timeout=2) ...`
is embedded over a stream of attempt outcomes.  `urllib.request.urlopen`
returns normally only for a response whose final status is below 400; for a
4xx/5xx status it raises `urllib.error.HTTPError` (documented Python
behaviour), which the bare `except Exception` treats like a connection
error. -/

/-- Outcome of one HTTP GET attempt against the staging URL. -/
inductive UrlopenOutcome where
  | response (code : Nat)
  | connError
deriving DecidableEq, Repr

/-- Whether `urllib.request.urlopen` raises for this outcome: it raises on
connection errors and (as `HTTPError`) on any response status ≥ 400. -/
def urlopenRaises : UrlopenOutcome → Bool
  | .connError => true
  | .response code => 400 ≤ code

/-- The health-check loop, started at attempt index `i` with `fuel` attempts
left.  Returns `(healthy, number of attempts performed)`. -/
def probeFrom (outcomes : Nat → UrlopenOutcome) (i : Nat) : Nat → Bool × Nat
  | 0 => (false, 0)
  | fuel + 1 =>
    if urlopenRaises (outcomes i) then
      let r := probeFrom outcomes (i + 1) fuel
      (r.1, r.2 + 1)
    else
      (true, 1)

/-- `probe(url, attempts, interval)`: the health-check loop from its first
attempt. -/
def probe (outcomes : Nat → UrlopenOutcome) (attempts : Nat) : Bool × Nat :=
  probeFrom outcomes 0 attempts

/-! ## Deployment orchestrator (`Project.deploy_with_docker`, models.py lines 85-221) -/

/-- External, non-deterministic outcomes of one deployment attempt. -/
structure DeployEnv where
  /-- the value `uuid.uuid4().hex` produced for a missing webhook token -/
  freshToken : String
  /-- `git clone` exits 0 -/
  cloneOk : Bool
  /-- the configured Dockerfile path exists inside the fresh clone -/
  dockerfilePresent : Bool
  /-- `docker build` exits 0 -/
  buildOk : Bool
  /-- the staging `docker run -d` exits 0 -/
  stagingRunOk : Bool
  /-- outcome of the i-th HTTP probe of the health-check loop -/
  probeOutcomes : Nat → UrlopenOutcome
  /-- the final (canonical-port) `docker run -d` exits 0 -/
  finalRunOk : Bool

/-- Result of `deploy_with_docker`: the returned `(success, message)` pair,
the project row after the method's `save()`s, the Docker daemon state, and
whether the clone workspace directory still exists on disk at return. -/
structure DeployResult where
  ok : Bool
  msg : String
  proj : ProjState
  docker : DockerState
  workspaceOnDisk : Bool
deriving Repr

/-! String helpers.  The python string methods used by the source
(`str.split` with a one-character separator, `str.replace`, `str.lower`,
`str.strip`) are embedded as structurally recursive functions over the
character list of a `String`, with python's semantics: `split` keeps empty
pieces (`''.split('/') == ['']`), `replace` substitutes every
non-overlapping occurrence left to right, `strip` removes leading and
trailing whitespace. -/

/-- Splitting accumulator: python `str.split(sep)` over the characters. -/
def splitOnCharAux (sep : Char) : List Char → List Char → List (List Char)
  | [], acc => [acc.reverse]
  | c :: cs, acc =>
    if c = sep then acc.reverse :: splitOnCharAux sep cs []
    else splitOnCharAux sep cs (c :: acc)

/-- Python `s.split(sep)` for a one-character separator `sep`. -/
def pySplitChar (sep : Char) (s : String) : List String :=
  (splitOnCharAux sep s.data []).map String.mk

/-- Python `s.replace(pat, new)` over the characters, with the input length
as (sufficient) structural fuel. -/
def replaceAux (pat new : List Char) : Nat → List Char → List Char
  | _, [] => []
  | 0, l => l
  | fuel + 1, c :: cs =>
    if pat ≠ [] ∧ pat.isPrefixOf (c :: cs) then
      new ++ replaceAux pat new fuel (List.drop (pat.length - 1) cs)
    else c :: replaceAux pat new fuel cs

/-- Python `s.replace(pat, new)`. -/
def pyReplace (s pat new : String) : String :=
  ⟨replaceAux pat.data new.data s.data.length s.data⟩

/-- Python `s.lower()`. -/
def pyLower (s : String) : String := ⟨s.data.map Char.toLower⟩

/-- The whitespace python `str.strip()` removes. -/
def isSpaceChar (c : Char) : Bool := c = ' ' || c = '\t' || c = '\n' || c = '\r'

/-- Python `s.strip()`. -/
def pyStrip (s : String) : String :=
  ⟨((s.data.dropWhile isSpaceChar).reverse.dropWhile isSpaceChar).reverse⟩

/-- `repo_name = self.github_repo_url.split('/')[-1].replace('.git', '')`. -/
def repoNameOf (url : String) : String :=
  pyReplace ((pySplitChar '/' url).getLastD "") ".git" ""

/-- Canonical container name `f"{repo_name}_{self.id}"`. -/
def canonicalNameOf (p : ProjState) : String :=
  repoNameOf p.github_repo_url ++ "_" ++ toString p.pid

/-- Staging container name `f"{repo_name}_{self.id}_staging"`. -/
def stagingNameOf (p : ProjState) : String :=
  repoNameOf p.github_repo_url ++ "_" ++ toString p.pid ++ "_staging"

/-- Temporary cutover name `f"{canonical_name}_new"`. -/
def newNameOf (p : ProjState) : String :=
  canonicalNameOf p ++ "_new"

/-- The `except Exception` branch of `deploy_with_docker` (lines 218-221):
every raised error is caught, the project status is set to `failed` and
`(False, str(e))` is returned.  Whatever was mutated and saved before the
raise stays mutated; no cleanup runs here. -/
def deployFail (p : ProjState) (d : DockerState) (ws : Bool) (msg : String) : DeployResult :=
  { ok := false, msg := msg, proj := { p with status := .failed },
    docker := d, workspaceOnDisk := ws }

/-- `Project.deploy_with_docker` (models.py lines 85-221).  `others` is the
snapshot of the other projects' assigned ports (this project's own saved
port is added at each allocator call, as the Django query sees it).
The leftover-workspace handling of lines 111-114 only changes the directory
*path*; the model tracks workspace existence, for which a fresh successful
clone means "on disk" and `shutil.rmtree` (line 215) means "gone" (a failed
fresh `git clone` removes its own partial directory). -/
def deploy_with_docker (p0 : ProjState) (others : List Nat) (d0 : DockerState)
    (env : DeployEnv) : DeployResult :=
  -- lines 95-96: status = deploying, save
  let p1 := { p0 with status := PStatus.deploying }
  -- lines 99-101: ensure webhook token (kept when already set)
  let tok := if p1.webhook_token = "" then env.freshToken else p1.webhook_token
  let p2 := { p1 with webhook_token := tok }
  -- lines 102-104: ensure exposed port (the allocator sees the other
  -- projects' ports; nothing before this reads or writes `exposed_port`,
  -- so the input row's value is the one tested)
  let port := match p0.exposed_port with
    | some q => q
    | none => get_next_available_port others
  let p3 := { p2 with exposed_port := some port }
  -- lines 106-117: clean leftover dir, git clone
  if !env.cloneOk then deployFail p3 d0 false "Git clone failed" else
  -- lines 119-122: check Dockerfile inside the clone
  if !env.dockerfilePresent then
    deployFail p3 d0 true ("Dockerfile not found at " ++ "Dockerfile") else
  -- lines 124-131: build image, image name saved before building.  The
  -- names derive from `github_repo_url` and the project id, which this
  -- method never mutates, so they are computed from the input row `p0`.
  let imageName := pyLower (canonicalNameOf p0)
  let p4 := { p3 with docker_image_name := imageName }
  if !env.buildOk then deployFail p4 d0 true "Docker build failed" else
  -- lines 136-143: staging port (allocator now also sees this project's port)
  let stagingPort0 := get_next_available_port (port :: others)
  let stagingPort := if stagingPort0 = port then stagingPort0 + 1 else stagingPort0
  let stagingNm := stagingNameOf p0
  let d1 := dockerRmF d0 stagingNm
  -- lines 144-154: run the staging container
  let sRun := dockerRunCmd d1 stagingNm imageName stagingPort env.stagingRunOk
  match sRun.1 with
  | none => deployFail p4 sRun.2 true "Docker run (staging) failed"
  | some stagingId =>
    -- lines 156-168: health-check loop (30 attempts, 2s apart)
    let healthy := (probe env.probeOutcomes 30).1
    if !healthy then
      let d3 := dockerRmF sRun.2 stagingId
      deployFail p4 d3 true "Staging container failed health check"
    else
      -- lines 170-180: cutover preparation (`docker_container_id` is not
      -- mutated before this point, so the old id is the input row's)
      let canonicalNm := canonicalNameOf p0
      let newNm := newNameOf p0
      let oldId := pyStrip p0.docker_container_id
      let d4 := if oldId ≠ "" then dockerStop sRun.2 oldId else sRun.2
      let d5 := dockerRmF d4 newNm
      -- lines 182-196: run the new container on the canonical port
      let fRun := dockerRunCmd d5 newNm imageName port env.finalRunOk
      match fRun.1 with
      | none =>
        -- lines 190-196: rollback
        let d7 := dockerRmF fRun.2 newNm
        let d8 := if oldId ≠ "" then dockerStart d7 oldId else d7
        let d9 := dockerRmF d8 stagingNm
        deployFail p4 d9 true "Docker run (final) failed"
      | some newId =>
        -- lines 198-207: promote (plain `docker rm` on the stopped old
        -- container; the rename's except-branch is unreachable because
        -- subprocess.run does not raise on a non-zero exit)
        let d7 := if oldId ≠ "" then dockerRm fRun.2 oldId else fRun.2
        let d8 := dockerRename d7 newNm canonicalNm
        let p5 := { p4 with docker_container_id := newId, status := PStatus.running }
        -- lines 213-215: cleanup staging container and clone dir
        let d9 := dockerRmF d8 stagingNm
        { ok := true, msg := "Deployed successfully on port " ++ toString port,
          proj := p5, docker := d9, workspaceOnDisk := false }

/-! ## Stop and status reconciliation (models.py lines 223-281) -/

/-- Result of `stop_container`. -/
structure StopResult where
  ok : Bool
  msg : String
  proj : ProjState
  docker : DockerState
deriving DecidableEq, Repr

/-- `Project.stop_container` (models.py lines 223-246): force-remove by the
recorded container id when present, then by the canonical, `_new` and
`_staging` derived names, clear the recorded id and set status to stopped.
Nothing inside the `try` can raise (`subprocess.run` never does without
`check=True`), so the except-branch is unreachable and the call always
returns success. -/
def stop_container (p : ProjState) (d : DockerState) : StopResult :=
  let d1 := if p.docker_container_id ≠ "" then dockerRmF d p.docker_container_id else d
  let d2 := dockerRmF d1 (canonicalNameOf p)
  let d3 := dockerRmF d2 (newNameOf p)
  let d4 := dockerRmF d3 (stagingNameOf p)
  { ok := true, msg := "Container stopped and removed successfully",
    proj := { p with docker_container_id := "", status := PStatus.stopped },
    docker := d4 }

/-- `docker inspect --format {{.State.Running\x7d\x7d <id>` as used by
`check_container_status`: exits non-zero when the target is unknown,
otherwise prints `true`/`false`.  `true` here means: found and running. -/
def inspectRunning (d : DockerState) (t : String) : Bool :=
  match d.containers.find? (matchesRef t) with
  | some c => c.running
  | none => false

/-- `Project.check_container_status` (models.py lines 248-281): returns
whether the recorded container is actually running and corrects drifted
state — but only corrects (to stopped, clearing the id) when the current
status is `running`. -/
def check_container_status (p : ProjState) (d : DockerState) : Bool × ProjState :=
  if p.docker_container_id = "" then
    if p.status = PStatus.running then (false, { p with status := PStatus.stopped })
    else (false, p)
  else
    if inspectRunning d p.docker_container_id then
      if p.status ≠ PStatus.running then (true, { p with status := PStatus.running })
      else (true, p)
    else
      if p.status = PStatus.running then
        (false, { p with status := PStatus.stopped, docker_container_id := "" })
      else (false, p)

/-! ## Webhook endpoint (`github_webhook`, src/core/views.py lines 547-596)

The HMAC-SHA256 hex digest is abstracted as a function parameter
`hmacHex : key → body → digest`; `hmac.compare_digest` is a constant-time
string comparison, modelled as equality.  JSON decoding of the body is
abstracted to its two extracted fields (`ref`, `after`), which are `""`
when absent or when the body does not parse, exactly as
`payload.get('ref', '')` / `payload.get('after', '')` yield. -/

/-- The relevant parts of one inbound webhook HTTP request. -/
structure WebhookRequest where
  /-- `request.headers.get('X-Hub-Signature-256')` -/
  signature : Option String
  /-- `request.headers.get('X-GitHub-Event')` -/
  event : Option String
  /-- `request.body`, the raw bytes the HMAC is computed over -/
  body : String
  /-- `payload.get('ref', '')` -/
  ref : String
  /-- `payload.get('after', '')` -/
  after : String
deriving DecidableEq, Repr

/-- The response of `github_webhook`, abstracting the HTTP layer:
`webhookDisabled` is the 403 "Webhook disabled", `invalidSignature` the 403
"Invalid signature", `malformedSignature` the 400 "Malformed signature
header"; `eventIgnored`/`branchIgnored` are 200 responses that deploy
nothing; `proceedToDeploy commit` means a Deployment ledger row is created
with that commit hash and `deploy_with_docker` is invoked. -/
inductive WebhookResponse where
  | webhookDisabled
  | invalidSignature
  | malformedSignature
  | eventIgnored
  | branchIgnored (branch : String)
  | proceedToDeploy (commit : String)
deriving DecidableEq, Repr

/-- Python truthiness of `request.headers.get(...)`: present and non-empty. -/
def headerPresent : Option String → Bool
  | some s => s ≠ ""
  | none => false

/-- Lines 567-589 of views.py: the event filter, branch filter and the
dispatch into deployment, entered once signature validation passed or was
skipped. -/
def webhookFilter (p : ProjState) (req : WebhookRequest) : WebhookResponse :=
  if req.event ≠ some "push" then .eventIgnored
  else
    let branch := if req.ref = "" then "" else (pySplitChar '/' req.ref).getLastD ""
    if p.webhook_branch ≠ "" ∧ branch ≠ "" ∧ branch ≠ p.webhook_branch then
      .branchIgnored branch
    else
      .proceedToDeploy req.after

/-- `github_webhook` (views.py lines 547-596).  Signature validation (lines
554-565) runs only when the project's token and the signature header are
both (Python-)truthy; `sha_name, sig = signature.split('=')` raises
`ValueError` — caught as 400 — unless the split yields exactly two parts,
and the prefix part is never compared against `"sha256"`. -/
def github_webhook (hmacHex : String → String → String) (p : ProjState)
    (req : WebhookRequest) : WebhookResponse :=
  if !p.webhook_enabled then .webhookDisabled
  else if p.webhook_token ≠ "" ∧ headerPresent req.signature then
    match pySplitChar '=' (req.signature.getD "") with
    | [_, sig] =>
      if sig = hmacHex p.webhook_token req.body then webhookFilter p req
      else .invalidSignature
    | _ => .malformedSignature
  else webhookFilter p req

/-! ## Caller layer and the Deployment ledger
(`deploy_project` in src/core/views.py lines 343-361, `project_deploy` in
src/projects/views.py lines 438-475, `github_webhook` lines 582-594) -/

/-- One row of the `Deployment` ledger, reduced to the fields the
one-in-progress invariant is about. -/
structure LedgerEntry where
  pid : Nat
  dstatus : DepStatus
deriving DecidableEq, Repr

/-- `Deployment.objects.filter(project=project, status='in_progress')` is
non-empty. -/
def hasInProgress (ledger : List LedgerEntry) (pid : Nat) : Bool :=
  ledger.any (fun e => e.pid = pid && e.dstatus = DepStatus.in_progress)

/-- Number of in-progress ledger rows of one project. -/
def countInProgress (ledger : List LedgerEntry) (pid : Nat) : Nat :=
  (ledger.filter (fun e => e.pid = pid && e.dstatus = DepStatus.in_progress)).length

/-- Result of the core manual-deploy view: the JSON `success` flag, the
ledger contents at the moment `deploy_with_docker` is entered, and the
ledger after the entry's terminal update. -/
structure DeployViewResult where
  ok : Bool
  ledgerAtInvoke : List LedgerEntry
  ledgerFinal : List LedgerEntry
deriving Repr

/-- `deploy_project` (src/core/views.py lines 343-361), past its
method/ownership guards: creates an in-progress `Deployment` row and
invokes `deploy_with_docker` immediately — with no check whatsoever for an
already in-progress row — then marks the row terminal. -/
def deploy_project_view (ledger : List LedgerEntry) (p : ProjState)
    (others : List Nat) (d : DockerState) (env : DeployEnv) : DeployViewResult :=
  let duringLedger := ledger ++ [⟨p.pid, DepStatus.in_progress⟩]
  let r := deploy_with_docker p others d env
  { ok := r.ok
    ledgerAtInvoke := duringLedger
    ledgerFinal := ledger ++ [⟨p.pid, if r.ok then DepStatus.success else DepStatus.failed⟩] }

/-- Outcome of the projects-app deploy view. -/
inductive ProjectsDeployOutcome where
  | refusedExisting
  | created
deriving DecidableEq, Repr

/-- `project_deploy` (src/projects/views.py lines 438-475), past its guards:
refuses when an in-progress `Deployment` row exists for the project,
otherwise creates a new in-progress row — and then only *simulates* a
deployment (it never calls `deploy_with_docker`). -/
def project_deploy_view (ledger : List LedgerEntry) (pid : Nat) :
    ProjectsDeployOutcome × List LedgerEntry :=
  if hasInProgress ledger pid then (.refusedExisting, ledger)
  else (.created, ledger ++ [⟨pid, DepStatus.in_progress⟩])

/-- The ledger contents at the moment `github_webhook` (views.py line 590)
enters `deploy_with_docker`, when the request got that far: line 589
creates the in-progress row unconditionally, without consulting the
ledger. -/
def github_webhook_ledgerAtInvoke (hmacHex : String → String → String)
    (p : ProjState) (req : WebhookRequest) (ledger : List LedgerEntry) :
    List LedgerEntry :=
  match github_webhook hmacHex p req with
  | .proceedToDeploy _ => ledger ++ [⟨p.pid, DepStatus.in_progress⟩]
  | _ => ledger

/-! ## Concrete fixtures used by witnesses and counterexamples -/

/-- A project with one prior successful deployment: canonical container
`oldc` recorded and running, port 3000 assigned. -/
def pFix : ProjState :=
  { pid := 1, github_repo_url := "https://github.com/u/app.git",
    status := PStatus.running, exposed_port := some 3000,
    docker_container_id := "oldc", docker_image_name := "app_1",
    webhook_enabled := true, webhook_token := "tok", webhook_branch := "main" }

/-- Daemon state holding only the recorded canonical container of `pFix`. -/
def dFix : DockerState :=
  { containers := [⟨"oldc", "app_1", true, "app_1", 3000⟩], nextId := 0 }

/-- An attempt in which every external step succeeds and the first probe
gets a 200 response. -/
def envAllOk : DeployEnv :=
  { freshToken := "fresh", cloneOk := true, dockerfilePresent := true,
    buildOk := true, stagingRunOk := true,
    probeOutcomes := fun _ => UrlopenOutcome.response 200, finalRunOk := true }

/-- Same attempt, but the final (canonical-port) `docker run` fails. -/
def envCutoverFail : DeployEnv := { envAllOk with finalRunOk := false }

/-- Same attempt, but the fresh clone has no Dockerfile at the configured
path. -/
def envNoDockerfile : DeployEnv := { envAllOk with dockerfilePresent := false }

/-- A concrete stand-in for the HMAC-SHA256 hex digest, good enough for the
webhook fixtures (its outputs contain no `=`). -/
def hmacFix : String → String → String :=
  fun key body => "h(" ++ key ++ "," ++ body ++ ")"

/-- A push-event webhook request for branch `main` with a given signature
header. -/
def reqFix (sig : Option String) : WebhookRequest :=
  { signature := sig, event := some "push", body := "payload-bytes",
    ref := "refs/heads/main", after := "c0ffee" }

/-- `pFix` with an empty webhook token. -/
def pNoTokFix : ProjState := { pFix with webhook_token := "" }

/-- `pFix` with no recorded container. -/
def pNoContFix : ProjState := { pFix with docker_container_id := "" }

/-- A project whose status has drifted to `failed` while still recording
container `c1`. -/
def pDriftFix : ProjState :=
  { pFix with status := PStatus.failed, docker_container_id := "c1" }

/-- Daemon state in which container `c1` exists but is not running. -/
def dStoppedFix : DockerState :=
  { containers := [⟨"c1", "app_1", false, "app_1", 3000⟩], nextId := 0 }

/-- Daemon state in which container `c1` exists and is running. -/
def dC1RunFix : DockerState :=
  { containers := [⟨"c1", "app_1", true, "app_1", 3000⟩], nextId := 0 }

/-- A ledger already holding an in-progress attempt for project 1. -/
def ledgerFix : List LedgerEntry := [⟨1, DepStatus.in_progress⟩]

/-! # Theorems -/

/-! ## Port allocator lemmas -/

theorem mem_le_maxUsed {used : List Nat} {p : Nat} (h : p ∈ used) : p ≤ maxUsed used := by
  induction used with
  | nil => cases h
  | cons a l ih =>
    rcases List.mem_cons.mp h with h | h
    · subst h; exact le_max_left _ _
    · exact le_trans (ih h) (le_max_right _ _)

theorem scanPort_notMem (used : List Nat) :
    ∀ fuel start, maxUsed used < start + fuel → scanPort used fuel start ∉ used := by
  intro fuel
  induction fuel with
  | zero =>
    intro start h hmem
    simp only [scanPort] at hmem
    exact absurd (mem_le_maxUsed hmem) (by omega)
  | succ f ih =>
    intro start h
    simp only [scanPort]
    split
    · exact ih (start + 1) (by omega)
    · intro hmem; simp_all

theorem scanPort_ge (used : List Nat) :
    ∀ fuel start, start ≤ scanPort used fuel start := by
  intro fuel
  induction fuel with
  | zero => intro start; simp [scanPort]
  | succ f ih =>
    intro start
    simp only [scanPort]
    split
    · exact le_trans (Nat.le_succ start) (ih (start + 1))
    · exact le_refl start

theorem scanPort_min (used : List Nat) :
    ∀ fuel start q, start ≤ q → q < scanPort used fuel start → q ∈ used := by
  intro fuel
  induction fuel with
  | zero =>
    intro start q h1 h2
    simp only [scanPort] at h2
    omega
  | succ f ih =>
    intro start q h1 h2
    simp only [scanPort] at h2
    split at h2
    · rcases Nat.eq_or_lt_of_le h1 with h | h
      · subst h; assumption
      · exact ih (start + 1) q h h2
    · omega

/-- Full functional specification of the port allocator: the result is at
least the floor 3000, it is not a used port, and every port between the
floor and the result is used (so the result is the smallest free one). -/
theorem get_next_available_port_spec (used : List Nat) :
    3000 ≤ get_next_available_port used ∧
    get_next_available_port used ∉ used ∧
    ∀ q, 3000 ≤ q → q < get_next_available_port used → q ∈ used := by
  refine ⟨scanPort_ge used _ 3000, scanPort_notMem used _ 3000 (by omega), ?_⟩
  intro q h1 h2
  exact scanPort_min used _ 3000 q h1 h2

/-- C4: `get_next_available_port` returns the smallest integer ≥ the fixed
floor 3000 that is not among the snapshot's assigned ports; in particular
it never returns a port already held by another project, and allocating its
result keeps the assigned ports pairwise distinct. -/
theorem C4_port_allocation (used : List Nat) :
    3000 ≤ get_next_available_port used ∧
    get_next_available_port used ∉ used ∧
    (∀ q, 3000 ≤ q → q < get_next_available_port used → q ∈ used) ∧
    (used.Nodup → (get_next_available_port used :: used).Nodup) := by
  obtain ⟨h1, h2, h3⟩ := get_next_available_port_spec used
  exact ⟨h1, h2, h3, fun hn => List.nodup_cons.mpr ⟨h2, hn⟩⟩

/-- Witness for C4 at a concrete snapshot: ports 3000 and 3002 taken, the
allocator returns 3001, which is fresh. -/
theorem C4_port_allocation_witness :
    get_next_available_port [3000, 3002] ∉ [3000, 3002] ∧
    get_next_available_port [3000, 3002] = 3001 :=
  ⟨(C4_port_allocation [3000, 3002]).2.1, by decide⟩

/-! ## Health prober lemmas -/

theorem probeFrom_allFail (outcomes : Nat → UrlopenOutcome) :
    ∀ fuel i, (∀ k, k < fuel → urlopenRaises (outcomes (i + k)) = true) →
      probeFrom outcomes i fuel = (false, fuel) := by
  intro fuel
  induction fuel with
  | zero => intro i _; rfl
  | succ f ih =>
    intro i h
    have h0 : urlopenRaises (outcomes i) = true := by
      have := h 0 (Nat.succ_pos f); simpa using this
    have hrest : ∀ k, k < f → urlopenRaises (outcomes (i + 1 + k)) = true := by
      intro k hk
      have := h (k + 1) (by omega)
      rwa [show i + 1 + k = i + (k + 1) by omega]
    simp [probeFrom, h0, ih (i + 1) hrest]

theorem probeFrom_firstSuccess (outcomes : Nat → UrlopenOutcome) :
    ∀ fuel i j, j < fuel → (∀ k, k < j → urlopenRaises (outcomes (i + k)) = true) →
      urlopenRaises (outcomes (i + j)) = false →
      probeFrom outcomes i fuel = (true, j + 1) := by
  intro fuel
  induction fuel with
  | zero => intro i j hj _ _; exact absurd hj (by omega)
  | succ f ih =>
    intro i j hj hpre hj0
    cases j with
    | zero =>
      have h0 : urlopenRaises (outcomes i) = false := by simpa using hj0
      simp [probeFrom, h0]
    | succ j' =>
      have h0 : urlopenRaises (outcomes i) = true := by
        have := hpre 0 (by omega); simpa using this
      have hpre' : ∀ k, k < j' → urlopenRaises (outcomes (i + 1 + k)) = true := by
        intro k hk
        have := hpre (k + 1) (by omega)
        rwa [show i + 1 + k = i + (k + 1) by omega]
      have hj0' : urlopenRaises (outcomes (i + 1 + j')) = false := by
        rwa [show i + 1 + j' = i + (j' + 1) by omega]
      simp [probeFrom, h0, ih (i + 1) j' (by omega) hpre' hj0']

/-- C6 is false as stated on the status-code point: against a target that
answers every GET with a 404 response — an HTTP response received with no
connection error — the probe returns false after all 30 attempts, because
`urllib.request.urlopen` raises `HTTPError` for any status ≥ 400 and the
loop's bare `except` treats that as a failed attempt. -/
theorem C6_counterexample :
    probe (fun _ => UrlopenOutcome.response 404) 30 = (false, 30) := by decide

/-- C6 (amended): the probe performs GETs up to the attempt budget and
returns true on the first attempt on which `urlopen` returns without
raising — i.e. a response with status < 400; responses with an error
status (≥ 400) make `urlopen` raise `HTTPError` and count as failures like
connection errors.  Against an always-failing target it returns false
after exactly `attempts` tries — not zero and not unbounded. -/
theorem C6_probe_attempts (outcomes : Nat → UrlopenOutcome) (attempts : Nat) :
    ((∀ i, i < attempts → urlopenRaises (outcomes i) = true) →
      probe outcomes attempts = (false, attempts)) ∧
    (∀ j, j < attempts → (∀ i, i < j → urlopenRaises (outcomes i) = true) →
      urlopenRaises (outcomes j) = false →
      probe outcomes attempts = (true, j + 1)) := by
  constructor
  · intro h
    exact probeFrom_allFail outcomes attempts 0 (fun k hk => by simpa using h k hk)
  · intro j hj hpre hj0
    exact probeFrom_firstSuccess outcomes attempts 0 j hj
      (fun k hk => by simpa using hpre k hk) (by simpa using hj0)

/-- Witness for C6 (amended): an always-failing target with attempts = 1
yields false after exactly one try; a target first reachable on the third
attempt yields true after exactly three tries. -/
theorem C6_probe_attempts_witness :
    probe (fun _ => UrlopenOutcome.connError) 1 = (false, 1) ∧
    probe (fun i => if i = 2 then UrlopenOutcome.response 200 else UrlopenOutcome.connError) 5
      = (true, 3) := by
  constructor
  · exact (C6_probe_attempts (fun _ => UrlopenOutcome.connError) 1).1 (by decide)
  · exact (C6_probe_attempts
      (fun i => if i = 2 then UrlopenOutcome.response 200 else UrlopenOutcome.connError) 5).2
      2 (by decide) (by decide) (by decide)

/-! ## Cleanup on exit paths (C3) -/

/-- C3: the claim matches the method's own docstring ("Always cleanup
staging container and clone dir"), but the code has no try/finally: the
cleanup of lines 213-215 sits on the success path only.  Evaluated at a
failing input — clone succeeds, Dockerfile missing — `deploy_with_docker`
returns failure with the workspace directory still on disk. -/
theorem C3_cleanup_missing_on_failure :
    (deploy_with_docker pFix [] dFix envNoDockerfile).ok = false ∧
    (deploy_with_docker pFix [] dFix envNoDockerfile).workspaceOnDisk = true := by decide

/-! ## One in-progress attempt per project (C7) -/

/-- C7 is false as stated: the core manual-deploy view
(`deploy_project`, src/core/views.py lines 343-361) performs no check for
an existing in-progress ledger entry — starting from a ledger that already
holds one for project 1, it creates a second and invokes the orchestrator,
so two in-progress entries for the project exist at the moment
`deploy_with_docker` is entered. -/
theorem C7_counterexample :
    countInProgress (deploy_project_view ledgerFix pFix [] dFix envAllOk).ledgerAtInvoke 1
      = 2 := by decide

/-- C7 (amended): only the projects-app view `project_deploy` checks for an
existing in-progress entry and refuses (leaving the ledger unchanged) —
and that view never invokes the orchestrator at all; the two entry points
that do deploy, the core manual-deploy view and the webhook handler, append
a fresh in-progress entry unconditionally before calling
`deploy_with_docker`. -/
theorem C7_in_progress_enforcement (ledger : List LedgerEntry) (pid : Nat)
    (p : ProjState) (others : List Nat) (d : DockerState) (env : DeployEnv)
    (hmacHex : String → String → String) (req : WebhookRequest) :
    (hasInProgress ledger pid = true →
      (project_deploy_view ledger pid).1 = ProjectsDeployOutcome.refusedExisting ∧
      (project_deploy_view ledger pid).2 = ledger) ∧
    ((deploy_project_view ledger p others d env).ledgerAtInvoke
      = ledger ++ [⟨p.pid, DepStatus.in_progress⟩]) ∧
    (∀ commit, github_webhook hmacHex p req = WebhookResponse.proceedToDeploy commit →
      github_webhook_ledgerAtInvoke hmacHex p req ledger
        = ledger ++ [⟨p.pid, DepStatus.in_progress⟩]) := by
  refine ⟨fun h => by simp [project_deploy_view, h], rfl, ?_⟩
  intro commit h
  simp [github_webhook_ledgerAtInvoke, h]

/-- Witness for C7 (amended) at the concrete fixtures: the projects-app
view refuses when an in-progress entry exists; the core view appends a
second in-progress entry for the same project regardless. -/
theorem C7_in_progress_enforcement_witness :
    (project_deploy_view ledgerFix 1).1 = ProjectsDeployOutcome.refusedExisting ∧
    (deploy_project_view ledgerFix pFix [] dFix envAllOk).ledgerAtInvoke
      = ledgerFix ++ [⟨1, DepStatus.in_progress⟩] := by
  have h := C7_in_progress_enforcement ledgerFix 1 pFix [] dFix envAllOk hmacFix (reqFix none)
  exact ⟨(h.1 (by decide)).1, h.2.1⟩

/-! ## Docker-state lemmas -/

theorem matchesRef_false_of {t : String} {c : Container}
    (h1 : c.cid ≠ t) (h2 : c.cname ≠ t) : matchesRef t c = false := by
  simp [matchesRef, h1, h2]

theorem of_mem_rmF {d : DockerState} {t : String} {c : Container}
    (h : c ∈ (dockerRmF d t).containers) :
    c ∈ d.containers ∧ matchesRef t c = false := by
  have := List.mem_filter.mp h
  exact ⟨this.1, by simpa using this.2⟩

theorem mem_rmF {d : DockerState} {t : String} {c : Container}
    (h : c ∈ d.containers) (hm : matchesRef t c = false) :
    c ∈ (dockerRmF d t).containers :=
  List.mem_filter.mpr ⟨h, by simp [hm]⟩

theorem rmF_eq_of_all {d : DockerState} {t : String}
    (h : ∀ c ∈ d.containers, matchesRef t c = false) : dockerRmF d t = d := by
  unfold dockerRmF rmFList
  have : d.containers.filter (fun c => !(matchesRef t c)) = d.containers :=
    List.filter_eq_self.mpr (fun c hc => by simp [h c hc])
  rw [this]

theorem mem_dockerStop {d : DockerState} {t : String} {c : Container}
    (h : c ∈ d.containers) :
    ∃ c' ∈ (dockerStop d t).containers, c'.cid = c.cid ∧ c'.cname = c.cname := by
  refine ⟨_, List.mem_map_of_mem _ h, ?_⟩
  constructor <;> (split <;> rfl)

theorem mem_dockerStart_running {d : DockerState} {t : String} {c : Container}
    (h : c ∈ d.containers) (hcid : c.cid = t) :
    ∃ c' ∈ (dockerStart d t).containers,
      c'.cid = c.cid ∧ c'.cname = c.cname ∧ c'.running = true := by
  refine ⟨_, List.mem_map_of_mem _ h, ?_⟩
  have hm : matchesRef t c = true := by simp [matchesRef, hcid]
  simp [hm]

theorem of_mem_dockerStart {d : DockerState} {t : String} {c' : Container}
    (h : c' ∈ (dockerStart d t).containers) :
    ∃ c ∈ d.containers, c'.cid = c.cid ∧ c'.cname = c.cname := by
  obtain ⟨c, hc, rfl⟩ := List.mem_map.mp h
  refine ⟨c, hc, ?_⟩
  constructor <;> (split <;> rfl)

theorem matchesRef_false_elim {t : String} {c : Container}
    (h : matchesRef t c = false) : c.cid ≠ t ∧ c.cname ≠ t := by
  simpa [matchesRef] using h

theorem mem_rmFList {t : String} {c : Container} {l : List Container}
    (h : c ∈ l) (hm : matchesRef t c = false) : c ∈ rmFList t l :=
  List.mem_filter.mpr ⟨h, by simp [hm]⟩

theorem of_mem_rmFList {t : String} {c : Container} {l : List Container}
    (h : c ∈ rmFList t l) : c ∈ l ∧ matchesRef t c = false := by
  have := List.mem_filter.mp h
  exact ⟨this.1, by simpa using this.2⟩

theorem mem_stopList {t : String} {c : Container} {l : List Container}
    (h : c ∈ l) :
    ∃ c' ∈ stopList t l, c'.cid = c.cid ∧ c'.cname = c.cname := by
  refine ⟨_, List.mem_map_of_mem _ h, ?_⟩
  constructor <;> (split <;> rfl)

theorem mem_startList_running {t : String} {c : Container} {l : List Container}
    (h : c ∈ l) (hcid : c.cid = t) :
    ∃ c' ∈ startList t l, c'.cid = c.cid ∧ c'.cname = c.cname ∧ c'.running = true := by
  refine ⟨_, List.mem_map_of_mem _ h, ?_⟩
  have hm : matchesRef t c = true := by simp [matchesRef, hcid]
  simp [hm]

theorem of_mem_startList {t : String} {c' : Container} {l : List Container}
    (h : c' ∈ startList t l) :
    ∃ c ∈ l, c'.cid = c.cid ∧ c'.cname = c.cname := by
  obtain ⟨c, hc, rfl⟩ := List.mem_map.mp h
  refine ⟨c, hc, ?_⟩
  constructor <;> (split <;> rfl)

/-! ## Stop idempotence (C9) -/

/-- C9: `stop_container` on a project with no recorded container returns
success, and calling it twice in a row returns success both times; the
second call is a pure no-op — it leaves the project's recorded container
id, its status and the container runtime state exactly as the first call
left them. -/
theorem C9_stop_idempotent (p : ProjState) (d : DockerState)
    (hnone : p.docker_container_id = "") :
    (stop_container p d).ok = true ∧
    (stop_container (stop_container p d).proj (stop_container p d).docker).ok = true ∧
    (stop_container (stop_container p d).proj (stop_container p d).docker).proj
      = (stop_container p d).proj ∧
    (stop_container (stop_container p d).proj (stop_container p d).docker).docker
      = (stop_container p d).docker := by
  refine ⟨rfl, rfl, rfl, ?_⟩
  show dockerRmF (dockerRmF (dockerRmF (stop_container p d).docker
        (canonicalNameOf p)) (newNameOf p)) (stagingNameOf p)
      = (stop_container p d).docker
  have h1 : ∀ c ∈ ((stop_container p d).docker).containers,
      matchesRef (canonicalNameOf p) c = false := by
    intro c hc
    exact (of_mem_rmF (of_mem_rmF (of_mem_rmF hc).1).1).2
  have h2 : ∀ c ∈ ((stop_container p d).docker).containers,
      matchesRef (newNameOf p) c = false := by
    intro c hc
    exact (of_mem_rmF (of_mem_rmF hc).1).2
  have h3 : ∀ c ∈ ((stop_container p d).docker).containers,
      matchesRef (stagingNameOf p) c = false := by
    intro c hc
    exact (of_mem_rmF hc).2
  rw [rmF_eq_of_all h1, rmF_eq_of_all h2, rmF_eq_of_all h3]

/-- Witness for C9 at the concrete fixture: a project with no recorded
container; both calls succeed and the second changes nothing. -/
theorem C9_stop_idempotent_witness :
    (stop_container pNoContFix dFix).ok = true ∧
    (stop_container (stop_container pNoContFix dFix).proj
        (stop_container pNoContFix dFix).docker).proj
      = (stop_container pNoContFix dFix).proj :=
  ⟨(C9_stop_idempotent pNoContFix dFix rfl).1,
   (C9_stop_idempotent pNoContFix dFix rfl).2.2.1⟩

/-! ## Status reconciliation (C8) -/

/-- C8 is false as stated: with a recorded container (`c1`) that exists but
is not running and a project status other than `running` (here `failed`),
`check_container_status` returns false yet neither corrects the status to
stopped nor clears the recorded container id — the correction is gated on
`self.status == 'running'`. -/
theorem C8_counterexample :
    (check_container_status pDriftFix dStoppedFix).1 = false ∧
    (check_container_status pDriftFix dStoppedFix).2.status = PStatus.failed ∧
    (check_container_status pDriftFix dStoppedFix).2.docker_container_id = "c1" := by
  decide

/-- C8 (amended): `check_container_status` returns false whenever the
recorded container id is empty, absent from the runtime, or not running —
but the self-healing correction (status := stopped, container id cleared)
happens only when the current status is `running`; any other status is left
untouched.  When the container is running it returns true and corrects the
status to `running` if it had drifted, leaving the recorded id in place. -/
theorem C8_check_status (p : ProjState) (d : DockerState) :
    ((p.docker_container_id = "" ∨ inspectRunning d p.docker_container_id = false) →
      (check_container_status p d).1 = false ∧
      (p.status = PStatus.running →
        (check_container_status p d).2.status = PStatus.stopped ∧
        (check_container_status p d).2.docker_container_id = "") ∧
      (p.status ≠ PStatus.running → (check_container_status p d).2 = p)) ∧
    (p.docker_container_id ≠ "" → inspectRunning d p.docker_container_id = true →
      (check_container_status p d).1 = true ∧
      (check_container_status p d).2.status = PStatus.running ∧
      (check_container_status p d).2.docker_container_id = p.docker_container_id) := by
  constructor
  · intro hdown
    by_cases hid : p.docker_container_id = ""
    · by_cases hst : p.status = PStatus.running
      · exact ⟨by simp [check_container_status, hid, hst],
          fun _ => ⟨by simp [check_container_status, hid, hst],
            by simp [check_container_status, hid, hst]⟩,
          fun h => absurd hst h⟩
      · exact ⟨by simp [check_container_status, hid, hst],
          fun h => absurd h hst, fun _ => by simp [check_container_status, hid, hst]⟩
    · have hnr : inspectRunning d p.docker_container_id = false := by
        rcases hdown with h | h
        · exact absurd h hid
        · exact h
      by_cases hst : p.status = PStatus.running
      · exact ⟨by simp [check_container_status, hid, hnr, hst],
          fun _ => ⟨by simp [check_container_status, hid, hnr, hst],
            by simp [check_container_status, hid, hnr, hst]⟩,
          fun h => absurd hst h⟩
      · exact ⟨by simp [check_container_status, hid, hnr, hst],
          fun h => absurd h hst, fun _ => by simp [check_container_status, hid, hnr, hst]⟩
  · intro hid hrun
    by_cases hst : p.status = PStatus.running
    · exact ⟨by simp [check_container_status, hid, hrun, hst],
        by simp [check_container_status, hid, hrun, hst],
        by simp [check_container_status, hid, hrun, hst]⟩
    · exact ⟨by simp [check_container_status, hid, hrun, hst],
        by simp [check_container_status, hid, hrun, hst],
        by simp [check_container_status, hid, hrun, hst]⟩

/-- Witness for C8 (amended): status had drifted to `running` while
container `c1` is stopped — the method self-heals to `stopped` and clears
the id; and with `c1` actually running and status `failed` it returns true
and corrects to `running`. -/
theorem C8_check_status_witness :
    ((check_container_status { pFix with docker_container_id := "c1" } dStoppedFix).1 = false ∧
      (check_container_status { pFix with docker_container_id := "c1" } dStoppedFix).2.status
        = PStatus.stopped) ∧
    ((check_container_status pDriftFix dC1RunFix).1 = true ∧
      (check_container_status pDriftFix dC1RunFix).2.status = PStatus.running) := by
  constructor
  · have h := (C8_check_status { pFix with docker_container_id := "c1" } dStoppedFix).1
      (Or.inr (by decide))
    exact ⟨h.1, (h.2.1 (by decide)).1⟩
  · have h := (C8_check_status pDriftFix dC1RunFix).2 (by decide) (by decide)
    exact ⟨h.1, h.2.1⟩

/-! ## Webhook signature validation (C5, C10) -/

theorem webhookFilter_ne_sigErrors (p : ProjState) (req : WebhookRequest) :
    webhookFilter p req ≠ WebhookResponse.invalidSignature ∧
    webhookFilter p req ≠ WebhookResponse.malformedSignature := by
  constructor
  · intro h
    unfold webhookFilter at h
    split at h
    · exact WebhookResponse.noConfusion h
    · simp only [] at h
      repeat' split at h
      all_goals exact WebhookResponse.noConfusion h
  · intro h
    unfold webhookFilter at h
    split at h
    · exact WebhookResponse.noConfusion h
    · simp only [] at h
      repeat' split at h
      all_goals exact WebhookResponse.noConfusion h

/-- C5 is false as stated on the header-form point: the handler never
checks the `sha256` prefix — a header of the form `md5=<correct digest>`
is not of the claimed `sha256=<hex>` shape, yet it is not rejected with
400; it passes validation and the request deploys. -/
theorem C5_counterexample :
    github_webhook hmacFix pFix (reqFix (some ("md5=" ++ hmacFix "tok" "payload-bytes")))
      = WebhookResponse.proceedToDeploy "c0ffee" := by decide

/-- C5 (amended): with a non-empty token and a (non-empty) signature
header: if the header splits on `=` into exactly two parts and the second
part differs from the HMAC-SHA256 hex digest of the raw body under the
token, the request is rejected as InvalidSignature (403) and nothing is
deployed; if the split does not yield exactly two parts, it is rejected as
MalformedSignature (400); but the prefix before `=` is not required to be
`sha256` — any prefix with a matching digest passes on to filtering.  The
source compares with `hmac.compare_digest` (constant-time), modelled as
string equality. -/
theorem C5_signature_validation (hmacHex : String → String → String)
    (p : ProjState) (req : WebhookRequest) (s : String)
    (hen : p.webhook_enabled = true) (htok : p.webhook_token ≠ "")
    (hsig : req.signature = some s) (hs : s ≠ "") :
    (∀ a b, pySplitChar '=' s = [a, b] → b ≠ hmacHex p.webhook_token req.body →
      github_webhook hmacHex p req = WebhookResponse.invalidSignature) ∧
    ((pySplitChar '=' s).length ≠ 2 →
      github_webhook hmacHex p req = WebhookResponse.malformedSignature) ∧
    (∀ a b, pySplitChar '=' s = [a, b] → b = hmacHex p.webhook_token req.body →
      github_webhook hmacHex p req = webhookFilter p req) := by
  have hcond : (p.webhook_token ≠ "" ∧ headerPresent req.signature) := by
    rw [hsig]
    exact ⟨htok, by simpa [headerPresent] using hs⟩
  have hbase : github_webhook hmacHex p req =
      match pySplitChar '=' s with
      | [_, sig] =>
        if sig = hmacHex p.webhook_token req.body then webhookFilter p req
        else WebhookResponse.invalidSignature
      | _ => WebhookResponse.malformedSignature := by
    unfold github_webhook
    rw [if_neg (by simp [hen]), if_pos hcond, hsig]
    rfl
  refine ⟨?_, ?_, ?_⟩
  · intro a b hab hne
    rw [hbase, hab]
    simp [hne]
  · intro hlen
    rw [hbase]
    rcases hsplit : pySplitChar '=' s with _ | ⟨a, _ | ⟨b, _ | ⟨c, rest⟩⟩⟩
    · rfl
    · rfl
    · exact absurd (by rw [hsplit]; rfl) hlen
    · rfl
  · intro a b hab heq
    rw [hbase, hab]
    simp [heq]

/-- Witness for C5 (amended): a `sha256=`-prefixed header with a wrong
digest is rejected 403; a header with no `=` at all is rejected 400. -/
theorem C5_signature_validation_witness :
    github_webhook hmacFix pFix (reqFix (some "sha256=bb"))
      = WebhookResponse.invalidSignature ∧
    github_webhook hmacFix pFix (reqFix (some "rawsig"))
      = WebhookResponse.malformedSignature := by
  constructor
  · exact (C5_signature_validation hmacFix pFix (reqFix (some "sha256=bb")) "sha256=bb"
      rfl (by decide) rfl (by decide)).1 "sha256" "bb" (by decide) (by decide)
  · exact (C5_signature_validation hmacFix pFix (reqFix (some "rawsig")) "rawsig"
      rfl (by decide) rfl (by decide)).2.1 (by decide)

/-- C10: for an enabled project, whenever the signature header is absent
(or blank, which Python's truthiness treats identically) or the project's
webhook token is empty, the signature-validation block is skipped entirely
and the request proceeds to the event/branch filtering; conversely, the
Invalid-signature 403 can arise only when a non-empty token and a present
signature header are both there. -/
theorem C10_signature_block_guard (hmacHex : String → String → String)
    (p : ProjState) (req : WebhookRequest) (hen : p.webhook_enabled = true) :
    ((p.webhook_token = "" ∨ headerPresent req.signature = false) →
      github_webhook hmacHex p req = webhookFilter p req) ∧
    (github_webhook hmacHex p req = WebhookResponse.invalidSignature →
      p.webhook_token ≠ "" ∧ headerPresent req.signature = true) := by
  constructor
  · intro h
    have hnot : ¬(p.webhook_token ≠ "" ∧ headerPresent req.signature) := by
      rcases h with h | h
      · exact fun hc => hc.1 h
      · exact fun hc => by rw [h] at hc; exact Bool.false_ne_true hc.2
    unfold github_webhook
    rw [if_neg (by simp [hen]), if_neg hnot]
  · intro hres
    by_cases hcond : (p.webhook_token ≠ "" ∧ headerPresent req.signature)
    · exact ⟨hcond.1, hcond.2⟩
    · exfalso
      apply (webhookFilter_ne_sigErrors p req).1
      rw [← hres]
      unfold github_webhook
      rw [if_neg (by simp [hen]), if_neg hcond]

/-- Witness for C10: an enabled project with an empty token and a present
(bad-looking) signature header skips validation and proceeds to filtering;
the same with no header at all. -/
theorem C10_signature_block_guard_witness :
    github_webhook hmacFix pNoTokFix (reqFix (some "md5=aa"))
      = webhookFilter pNoTokFix (reqFix (some "md5=aa")) ∧
    github_webhook hmacFix pFix (reqFix none)
      = webhookFilter pFix (reqFix none) := by
  constructor
  · exact (C10_signature_block_guard hmacFix pNoTokFix (reqFix (some "md5=aa")) rfl).1
      (Or.inl (by decide))
  · exact (C10_signature_block_guard hmacFix pFix (reqFix none) rfl).1
      (Or.inr (by decide))

/-! ## The CutoverFailed rollback path (C1, C2) -/

theorem deploy_cutoverFail_spec (p : ProjState) (others : List Nat)
    (d : DockerState) (env : DeployEnv) (q : Nat) (c : Container)
    (hq : p.exposed_port = some q)
    (hc : c ∈ d.containers)
    (hcid : c.cid = pyStrip p.docker_container_id)
    (hid : pyStrip p.docker_container_id ≠ "")
    (hn1 : c.cid ≠ newNameOf p) (hn2 : c.cid ≠ stagingNameOf p)
    (hn3 : c.cname ≠ newNameOf p) (hn4 : c.cname ≠ stagingNameOf p)
    (h1 : env.cloneOk = true) (h2 : env.dockerfilePresent = true)
    (h3 : env.buildOk = true) (h4 : env.stagingRunOk = true)
    (h5 : (probe env.probeOutcomes 30).1 = true) (h6 : env.finalRunOk = false) :
    (deploy_with_docker p others d env).ok = false ∧
    (deploy_with_docker p others d env).proj.status = PStatus.failed ∧
    (deploy_with_docker p others d env).proj.docker_container_id = p.docker_container_id ∧
    (deploy_with_docker p others d env).proj.exposed_port = some q ∧
    (∃ c' ∈ ((deploy_with_docker p others d env).docker).containers,
      c'.cid = pyStrip p.docker_container_id ∧ c'.running = true) ∧
    (∀ c' ∈ ((deploy_with_docker p others d env).docker).containers,
      c'.cname ≠ newNameOf p ∧ c'.cname ≠ stagingNameOf p) := by
  unfold deploy_with_docker
  simp only [hq, h1, h2, h3, h4, h5, h6, hid, dockerRunCmd, deployFail,
    dockerRmF, dockerStop, dockerStart, Bool.not_true, Bool.not_false, ne_eq,
    not_false_iff, if_true, if_false, ite_true, ite_false, reduceCtorEq]
  refine ⟨trivial, trivial, trivial, trivial, ?_, ?_⟩
  · -- the old container, restarted, is the witness
    refine ⟨{ c with running := true }, ?_, hcid, rfl⟩
    refine mem_rmFList ?_ (matchesRef_false_of hn2 hn4)
    refine List.mem_map.mpr ⟨{ c with running := false }, ?_, ?_⟩
    · refine mem_rmFList ?_ (matchesRef_false_of hn1 hn3)
      refine List.mem_cons_of_mem _ ?_
      refine mem_rmFList ?_ (matchesRef_false_of hn1 hn3)
      refine List.mem_map.mpr ⟨c, ?_, ?_⟩
      · exact List.mem_cons_of_mem _ (mem_rmFList hc (matchesRef_false_of hn2 hn4))
      · have hm : matchesRef (pyStrip p.docker_container_id) c = true := by
          simp [matchesRef, hcid]
        simp [hm]
    · have hm : matchesRef (pyStrip p.docker_container_id)
          ({ c with running := false } : Container) = true := by
        simp [matchesRef, hcid]
      simp [hm]
  · -- nothing named `-new` or `_staging` survives the rollback cleanup
    intro c' h'
    obtain ⟨h8, hmS⟩ := of_mem_rmFList h'
    obtain ⟨c0, hc0, g1, g2⟩ := of_mem_startList h8
    obtain ⟨h7, hmN⟩ := of_mem_rmFList hc0
    constructor
    · rw [g2]
      exact (matchesRef_false_elim hmN).2
    · exact (matchesRef_false_elim hmS).2

/-- C1 is false as stated: at a concrete CutoverFailed attempt on a project
whose status was `running`, with its old canonical container recorded and
(per the rollback) restarted, `deploy_with_docker` still leaves the
project's status at `failed` — the `except` branch of lines 218-221 runs on
this path too, so the status is not left at its previous `running` value. -/
theorem C1_counterexample :
    (deploy_with_docker pFix [] dFix envCutoverFail).proj.status = PStatus.failed ∧
    PStatus.failed ≠ PStatus.running ∧
    (deploy_with_docker pFix [] dFix envCutoverFail).docker.containers
      = [⟨"oldc", "app_1", true, "app_1", 3000⟩] := by decide

/-- C1 (amended): on the CutoverFailed rollback path — old canonical
container recorded, stopped and restarted — `deploy_with_docker` returns
failure and sets the project's status to `failed`, exactly like every other
failure path; only the recorded container id still names the old
container. -/
theorem C1_cutover_status_failed (p : ProjState) (others : List Nat)
    (d : DockerState) (env : DeployEnv) (q : Nat) (c : Container)
    (hq : p.exposed_port = some q)
    (hc : c ∈ d.containers)
    (hcid : c.cid = pyStrip p.docker_container_id)
    (hid : pyStrip p.docker_container_id ≠ "")
    (hn1 : c.cid ≠ newNameOf p) (hn2 : c.cid ≠ stagingNameOf p)
    (hn3 : c.cname ≠ newNameOf p) (hn4 : c.cname ≠ stagingNameOf p)
    (h1 : env.cloneOk = true) (h2 : env.dockerfilePresent = true)
    (h3 : env.buildOk = true) (h4 : env.stagingRunOk = true)
    (h5 : (probe env.probeOutcomes 30).1 = true) (h6 : env.finalRunOk = false) :
    (deploy_with_docker p others d env).ok = false ∧
    (deploy_with_docker p others d env).proj.status = PStatus.failed ∧
    (deploy_with_docker p others d env).proj.docker_container_id
      = p.docker_container_id := by
  obtain ⟨hok, hst, hcon, _, _, _⟩ :=
    deploy_cutoverFail_spec p others d env q c hq hc hcid hid hn1 hn2 hn3 hn4
      h1 h2 h3 h4 h5 h6
  exact ⟨hok, hst, hcon⟩

/-- Witness for C1 (amended) at the concrete fixtures. -/
theorem C1_cutover_status_failed_witness :
    (deploy_with_docker pFix [] dFix envCutoverFail).ok = false ∧
    (deploy_with_docker pFix [] dFix envCutoverFail).proj.status = PStatus.failed := by
  have h := C1_cutover_status_failed pFix [] dFix envCutoverFail 3000
    ⟨"oldc", "app_1", true, "app_1", 3000⟩ rfl (by decide) (by decide) (by decide)
    (by decide) (by decide) (by decide) (by decide) rfl rfl rfl rfl (by decide) rfl
  exact ⟨h.1, h.2.1⟩

/-- C2: rollback invariant of the CutoverFailed path.  After
`deploy_with_docker` returns from a cutover failure on a project with an
existing recorded (and runtime-present) container: the recorded container
id is unchanged and the runtime still holds a container with that id,
running again (it was restarted); no container named `_new` or `_staging`
survives (both were removed); and the project's exposed port is
unchanged. -/
theorem C2_rollback_invariant (p : ProjState) (others : List Nat)
    (d : DockerState) (env : DeployEnv) (q : Nat) (c : Container)
    (hq : p.exposed_port = some q)
    (hc : c ∈ d.containers)
    (hcid : c.cid = pyStrip p.docker_container_id)
    (hid : pyStrip p.docker_container_id ≠ "")
    (hn1 : c.cid ≠ newNameOf p) (hn2 : c.cid ≠ stagingNameOf p)
    (hn3 : c.cname ≠ newNameOf p) (hn4 : c.cname ≠ stagingNameOf p)
    (h1 : env.cloneOk = true) (h2 : env.dockerfilePresent = true)
    (h3 : env.buildOk = true) (h4 : env.stagingRunOk = true)
    (h5 : (probe env.probeOutcomes 30).1 = true) (h6 : env.finalRunOk = false) :
    (deploy_with_docker p others d env).ok = false ∧
    (deploy_with_docker p others d env).proj.docker_container_id
      = p.docker_container_id ∧
    (∃ c' ∈ ((deploy_with_docker p others d env).docker).containers,
      c'.cid = pyStrip p.docker_container_id ∧ c'.running = true) ∧
    (∀ c' ∈ ((deploy_with_docker p others d env).docker).containers,
      c'.cname ≠ newNameOf p ∧ c'.cname ≠ stagingNameOf p) ∧
    (deploy_with_docker p others d env).proj.exposed_port = some q := by
  obtain ⟨hok, _, hcon, hport, hex, habs⟩ :=
    deploy_cutoverFail_spec p others d env q c hq hc hcid hid hn1 hn2 hn3 hn4
      h1 h2 h3 h4 h5 h6
  exact ⟨hok, hcon, hex, habs, hport⟩

/-- Witness for C2 at the concrete fixtures: project with recorded running
container `oldc` on port 3000; every step up to the final run succeeds and
the final run fails. -/
theorem C2_rollback_invariant_witness :
    (deploy_with_docker pFix [] dFix envCutoverFail).ok = false ∧
    (deploy_with_docker pFix [] dFix envCutoverFail).proj.docker_container_id = "oldc" ∧
    (∃ c' ∈ ((deploy_with_docker pFix [] dFix envCutoverFail).docker).containers,
      c'.cid = "oldc" ∧ c'.running = true) ∧
    (deploy_with_docker pFix [] dFix envCutoverFail).proj.exposed_port = some 3000 := by
  have h := C2_rollback_invariant pFix [] dFix envCutoverFail 3000
    ⟨"oldc", "app_1", true, "app_1", 3000⟩ rfl (by decide) (by decide) (by decide)
    (by decide) (by decide) (by decide) (by decide) rfl rfl rfl rfl (by decide) rfl
  obtain ⟨c', hm, hcid', hrun⟩ := h.2.2.1
  exact ⟨h.1, h.2.1, ⟨c', hm, hcid'.trans (by decide), hrun⟩, h.2.2.2.2⟩

end EasyDeploy
